import Mathlib

/-!
Shallow embedding of the two source files of the repository
`autonomous-business-monetization-strategist`:

  * `src/data_processor.py`   — class `DataProcessor`
  * `src/monetization_strategy_generator.py` — classes `MonetizationStrategy`
    and `MonetizationStrategyGenerator`

Python run-time values are modelled by `PyVal`, raised exceptions by `PyExc`,
and a method that may raise returns `Except PyExc _`.  The collaborators
(`DataCleaner`, `MarketAnalyzer`, `KnowledgeRepository`) are external to the
repository and treated as opaque: each is a structure holding the one
function the source calls on it, quantified over in the theorems.  Each
method takes its receiver `self` explicitly and returns, beside its result,
the receiver's post-state, so that absence of field reassignment is a
provable statement.  Calls made to collaborators or to internal steps, and
messages logged at error severity, are recorded in explicit trace fields of
the result structures; Python's `logging` configuration itself (file
handlers, formats) is operational plumbing outside the embedded contract.
Numeric `float` fields carry `Rat` values: no floating-point arithmetic
occurs anywhere in the source, only storage and display, so an exact
carrier is faithful.
-/

namespace ABMS

/-- A Python run-time value, as far as the source manipulates them:
dictionaries with string keys, lists, strings, numbers, booleans and
`None`. -/
inductive PyVal where
  | none : PyVal
  | bool (b : Bool) : PyVal
  | int (n : Int) : PyVal
  | str (s : String) : PyVal
  | list (xs : List PyVal) : PyVal
  | dict (entries : List (String × PyVal)) : PyVal

/-- Python's type name of a value, as it appears in error messages. -/
def PyVal.typeName : PyVal → String
  | .none => "NoneType"
  | .bool _ => "bool"
  | .int _ => "int"
  | .str _ => "str"
  | .list _ => "list"
  | .dict _ => "dict"

/-- A raised Python exception: either a `TypeError` raised by the run-time
(the only run-time error the embedded code can produce, from iterating a
non-iterable) or an arbitrary exception raised by an opaque collaborator,
tagged with its class name.  Re-raising unchanged is equality of these
values. -/
inductive PyExc where
  | typeError (msg : String) : PyExc
  | external (kind : String) (msg : String) : PyExc
deriving Repr, DecidableEq

/-- Python's `str(e)` on an exception: its message. -/
def PyExc.str : PyExc → String
  | .typeError m => m
  | .external _ m => m

/-- Python iteration protocol, as used by the `for` statement: lists yield
their elements, strings their characters, dictionaries their keys; every
other value raises `TypeError: '<type>' object is not iterable`. -/
def pyIter : PyVal → Except PyExc (List PyVal)
  | .list xs => .ok xs
  | .str s => .ok (s.data.map fun c => PyVal.str (String.mk [c]))
  | .dict entries => .ok (entries.map fun kv => PyVal.str kv.1)
  | v => .error (.typeError (String.append (String.append "'" v.typeName)
      "' object is not iterable"))

/-- Opaque external collaborator (`src/data_cleaner.py`, not in the
repository): only its `clean(data)` method is called. -/
structure DataCleaner where
  clean : PyVal → Except PyExc PyVal

/-- Opaque external collaborator (`src/market_analyzer.py`, not in the
repository): only its `analyze(market_trends)` method is called. -/
structure MarketAnalyzer where
  analyze : PyVal → Except PyExc PyVal

/-- Opaque external collaborator (`knowledge_base/knowledge_repository.py`,
not in the repository): only its `save(serialized, category)` method is
called. -/
structure KnowledgeRepository where
  save : String → String → Except PyExc Unit

/-- The instance state of `DataProcessor`: its `__init__` assigns
`self.data_cleaner = DataCleaner()` and never touches it again.  The
externally constructed `DataCleaner()` instance is the parameter of `mk`,
since its class is opaque.  The `self.logger` attribute is logging plumbing
and is represented by the log traces in the results instead. -/
structure DataProcessor where
  data_cleaner : DataCleaner

/-- `DataProcessor._transform(cleaned_data)` — the body is `pass`, so the
call performs nothing and returns `None`, whatever its annotations say. -/
def DataProcessor._transform (self : DataProcessor) (cleaned_data : PyVal) : PyVal :=
  PyVal.none

/-- The observable outcome of one `DataProcessor.process` call: the returned
value or raised exception, the arguments `clean` was called with (in call
order), and the messages this method logged at error severity. -/
structure ProcResult where
  result : Except PyExc PyVal
  cleanArgs : List PyVal
  logs : List String

/-- `DataProcessor.process(data)`: inside a `try`, calls
`self.data_cleaner.clean(data)`, then `self._transform` on the cleaned
result, and returns the transformed result; `except Exception as e` logs
`"Data processing failed: " + str(e)` at error severity and re-raises with
a bare `raise`.  `_transform` itself cannot raise (its body is `pass`). -/
def DataProcessor.process (self : DataProcessor) (data : PyVal) :
    ProcResult × DataProcessor :=
  match self.data_cleaner.clean data with
  | .error e =>
      (⟨.error e, [data], [String.append "Data processing failed: " e.str]⟩, self)
  | .ok cleaned_data =>
      (⟨.ok (self._transform cleaned_data), [data], []⟩, self)

/-- The `@dataclass MonetizationStrategy` record of
`src/monetization_strategy_generator.py`: five fields, no `__post_init__`,
no validation.  `metrics : Dict[str, float]` and `confidence_score : float`
carry exact `Rat` values (the source never computes with them). -/
structure MonetizationStrategy where
  name : String
  description : String
  metrics : List (String × Rat)
  recommendations : List String
  confidence_score : Rat

/-- Python's `repr` of a string, as it appears inside the dataclass display
form (quote escaping inside the text is abstracted). -/
def pyStrRepr (s : String) : String :=
  String.append (String.append "'" s) "'"

/-- Display form of a `Dict[str, float]` literal (numeric display of a
`float` is abstracted by the exact rational's display). -/
def pyDictRepr (entries : List (String × Rat)) : String :=
  String.append "\x7b"
    (String.append
      (String.intercalate ", "
        (entries.map fun kv =>
          String.append (pyStrRepr kv.1) (String.append ": " (toString kv.2))))
      "\x7d")

/-- Display form of a `List[str]` literal. -/
def pyListRepr (xs : List String) : String :=
  String.append "["
    (String.append (String.intercalate ", " (xs.map pyStrRepr)) "]")

/-- Python's `str(strategy)`: the generated dataclass `__repr__`, listing
the five fields in declaration order. -/
def MonetizationStrategy.toStr (s : MonetizationStrategy) : String :=
  String.append "MonetizationStrategy(name="
    (String.append (pyStrRepr s.name)
      (String.append ", description="
        (String.append (pyStrRepr s.description)
          (String.append ", metrics="
            (String.append (pyDictRepr s.metrics)
              (String.append ", recommendations="
                (String.append (pyListRepr s.recommendations)
                  (String.append ", confidence_score="
                    (String.append (toString s.confidence_score) ")")))))))))

/-- The instance state of `MonetizationStrategyGenerator`: its `__init__`
assigns the three injected collaborators to attributes of the same names
and never touches them again (`self.logger` is logging plumbing,
represented by the log traces in the results). -/
structure MonetizationStrategyGenerator where
  data_processor : DataProcessor
  market_analyzer : MarketAnalyzer
  knowledge_repository : KnowledgeRepository

/-- `MonetizationStrategyGenerator._identify_inefficiencies(pb, pm)` — the
body is `pass`, so the call performs nothing and returns `None`, despite
the `List[Dict]` annotation. -/
def MonetizationStrategyGenerator._identify_inefficiencies
    (self : MonetizationStrategyGenerator)
    (processed_business_data processed_market_data : PyVal) : PyVal :=
  PyVal.none

/-- `MonetizationStrategyGenerator._create_strategy(pattern)` — the body is
`pass`, so the call performs nothing and returns `None`, despite the
`MonetizationStrategy` annotation. -/
def MonetizationStrategyGenerator._create_strategy
    (self : MonetizationStrategyGenerator)
    (inefficiency_pattern : PyVal) : PyVal :=
  PyVal.none

/-- The observable outcome of one `generate_strategies` call: the returned
value or raised exception, the arguments passed to
`self.data_processor.process`, to `self.market_analyzer.analyze`, to
`self._identify_inefficiencies` and to `self._create_strategy` (each in
call order), and the messages this method logged at error severity. -/
structure GenResult where
  result : Except PyExc PyVal
  processCalls : List PyVal
  analyzeCalls : List PyVal
  identifyCalls : List (PyVal × PyVal)
  createCalls : List PyVal
  logs : List String

/-- `MonetizationStrategyGenerator.generate_strategies(business_data,
market_trends)`: inside a `try`, calls `self.data_processor.process` on
`business_data`, then `self.market_analyzer.analyze` on `market_trends`,
then `self._identify_inefficiencies` on both results, then runs
`strategies = []` and a `for` loop appending
`self._create_strategy(inefficiency)` for each element the iteration
protocol yields, and returns `strategies`; `except Exception as e` logs
`"Error generating strategies: " + str(e)` at error severity and re-raises
with a bare `raise`.  Since `_identify_inefficiencies` returns `None`, the
`for` statement's call to `iter` raises `TypeError` whenever it is
reached. -/
def MonetizationStrategyGenerator.generate_strategies
    (self : MonetizationStrategyGenerator)
    (business_data market_trends : PyVal) :
    GenResult × MonetizationStrategyGenerator :=
  let pr := self.data_processor.process business_data
  let self1 := { self with data_processor := pr.2 }
  match pr.1.result with
  | .error e =>
      (⟨.error e, [business_data], [], [], [],
        [String.append "Error generating strategies: " e.str]⟩, self1)
  | .ok processed_business_data =>
    match self1.market_analyzer.analyze market_trends with
    | .error e =>
        (⟨.error e, [business_data], [market_trends], [], [],
          [String.append "Error generating strategies: " e.str]⟩, self1)
    | .ok processed_market_data =>
      let inefficiencies :=
        self1._identify_inefficiencies processed_business_data processed_market_data
      match pyIter inefficiencies with
      | .error e =>
          (⟨.error e, [business_data], [market_trends],
            [(processed_business_data, processed_market_data)], [],
            [String.append "Error generating strategies: " e.str]⟩, self1)
      | .ok items =>
          (⟨.ok (PyVal.list (items.map self1._create_strategy)),
            [business_data], [market_trends],
            [(processed_business_data, processed_market_data)], items, []⟩, self1)

/-- `MonetizationStrategyGenerator.optimize_strategy(strategy, feedback)` —
the body is `pass`, so the call performs nothing, mutates nothing and
returns `None`, despite the `MonetizationStrategy` annotation.  The result
carries the returned value and the post-state of the `strategy` argument
(objects are passed by reference in Python, so a mutation would be
observable there). -/
def MonetizationStrategyGenerator.optimize_strategy
    (self : MonetizationStrategyGenerator)
    (strategy : MonetizationStrategy) (feedback : List (String × Rat)) :
    (Option MonetizationStrategy × MonetizationStrategy) ×
      MonetizationStrategyGenerator :=
  ((Option.none, strategy), self)

/-- The observable outcome of one `save_strategy` call: the returned value
(`None`, i.e. `Unit`) or raised exception, the argument pairs passed to
`self.knowledge_repository.save` (in call order), and the messages this
method logged at error severity. -/
structure SaveResult where
  result : Except PyExc Unit
  saveCalls : List (String × String)
  logs : List String

/-- `MonetizationStrategyGenerator.save_strategy(strategy)`: calls
`self.knowledge_repository.save(str(strategy), "monetization_strategies")`
and returns `None`.  There is no `try`/`except` here: a failure from the
repository propagates unchanged and nothing is logged by this method. -/
def MonetizationStrategyGenerator.save_strategy
    (self : MonetizationStrategyGenerator)
    (strategy : MonetizationStrategy) :
    SaveResult × MonetizationStrategyGenerator :=
  match self.knowledge_repository.save strategy.toStr "monetization_strategies" with
  | .ok _ =>
      (⟨.ok (), [(strategy.toStr, "monetization_strategies")], []⟩, self)
  | .error e =>
      (⟨.error e, [(strategy.toStr, "monetization_strategies")], []⟩, self)

/-! Concrete collaborator instances used by witnesses and counterexamples. -/

/-- A cleaner that succeeds, returning its argument. -/
def cleanerOk : DataCleaner := ⟨fun v => .ok v⟩

/-- A cleaner that raises `ValueError("bad input")`. -/
def cleanerErr : DataCleaner := ⟨fun _ => .error (.external "ValueError" "bad input")⟩

/-- An analyzer that succeeds, returning its argument. -/
def analyzerOk : MarketAnalyzer := ⟨fun v => .ok v⟩

/-- An analyzer that raises `RuntimeError("market feed down")`. -/
def analyzerErr : MarketAnalyzer := ⟨fun _ => .error (.external "RuntimeError" "market feed down")⟩

/-- A repository whose `save` succeeds. -/
def repoOk : KnowledgeRepository := ⟨fun _ _ => .ok ()⟩

/-- A repository whose `save` raises `IOError("disk full")`. -/
def repoErr : KnowledgeRepository := ⟨fun _ _ => .error (.external "IOError" "disk full")⟩

/-- A processor over the succeeding cleaner. -/
def dpOk : DataProcessor := ⟨cleanerOk⟩

/-- A processor over the raising cleaner. -/
def dpErr : DataProcessor := ⟨cleanerErr⟩

/-- A generator whose collaborators all succeed. -/
def genOk : MonetizationStrategyGenerator := ⟨dpOk, analyzerOk, repoOk⟩

/-- A generator whose cleaner raises. -/
def genCleanErr : MonetizationStrategyGenerator := ⟨dpErr, analyzerOk, repoOk⟩

/-- A generator whose analyzer raises. -/
def genAnalyzeErr : MonetizationStrategyGenerator := ⟨dpOk, analyzerErr, repoOk⟩

/-- A generator whose repository raises. -/
def genRepoErr : MonetizationStrategyGenerator := ⟨dpOk, analyzerOk, repoErr⟩

/-- A sample business-data mapping. -/
def sampleData : PyVal := .dict [("revenue", .int 100)]

/-- A sample market-trends mapping. -/
def sampleTrends : PyVal := .dict [("growth", .int 2)]

/-- A sample strategy record. -/
def sampleStrategy : MonetizationStrategy :=
  ⟨"upsell", "raise the top tier price", [("arpu", 12)], ["target heavy users"], 4/5⟩

/-- C1: for every cleaner and every input mapping `data`,
`DataProcessor.process data` calls the cleaner's `clean` exactly once, with
`data` unmodified; when `clean` succeeds it returns `_transform` of the
cleaned result and logs nothing; when `clean` raises it logs one error
message containing the failure message and re-raises the very same
exception value, unwrapped. -/
theorem process_contract (self : DataProcessor) (data : PyVal) :
    (self.process data).1.cleanArgs = [data] ∧
    (∀ cleaned, self.data_cleaner.clean data = .ok cleaned →
      (self.process data).1.result = .ok (self._transform cleaned) ∧
      (self.process data).1.logs = []) ∧
    (∀ e, self.data_cleaner.clean data = .error e →
      (self.process data).1.result = .error e ∧
      (self.process data).1.logs =
        [String.append "Data processing failed: " e.str]) := by
  refine ⟨?_, ?_, ?_⟩
  · cases h : self.data_cleaner.clean data <;> simp [DataProcessor.process, h]
  · intro cleaned h
    simp [DataProcessor.process, h]
  · intro e h
    simp [DataProcessor.process, h]

/-- Witness for C1 at concrete cleaners: the succeeding cleaner yields
`_transform`'s result with no log, the raising one yields the same
exception and the logged message. -/
theorem process_contract_witness :
    ((dpOk.process sampleData).1.result = .ok (dpOk._transform sampleData) ∧
      (dpOk.process sampleData).1.logs = []) ∧
    ((dpErr.process sampleData).1.result =
        .error (PyExc.external "ValueError" "bad input") ∧
      (dpErr.process sampleData).1.logs =
        [String.append "Data processing failed: "
          (PyExc.str (PyExc.external "ValueError" "bad input"))]) :=
  ⟨(process_contract dpOk sampleData).2.1 sampleData rfl,
   (process_contract dpErr sampleData).2.2
     (PyExc.external "ValueError" "bad input") rfl⟩

/-- C6: `_transform` returns the absence-of-value marker `None` on every
input, despite its mapping annotation, and therefore `process` returns
`None` whenever the cleaner succeeds. -/
theorem transform_returns_none (self : DataProcessor) (cleaned_data : PyVal) :
    self._transform cleaned_data = PyVal.none ∧
    (∀ data cleaned, self.data_cleaner.clean data = .ok cleaned →
      (self.process data).1.result = .ok PyVal.none) := by
  refine ⟨rfl, ?_⟩
  intro data cleaned h
  simp [DataProcessor.process, h, DataProcessor._transform]

/-- Witness for C6 at the concrete succeeding cleaner. -/
theorem transform_returns_none_witness :
    (dpOk.process sampleData).1.result = .ok PyVal.none :=
  (transform_returns_none dpOk sampleData).2 sampleData sampleData rfl

/-- C8: constructing a `MonetizationStrategy` from any five field values
yields a record exposing exactly those values unchanged; there is no
validation (the confidence score below is far outside `[0, 1]` and
construction still succeeds) and construction never fails. -/
theorem monetization_strategy_plain_record (name description : String)
    (metrics : List (String × Rat)) (recommendations : List String)
    (confidence_score : Rat) :
    (MonetizationStrategy.mk name description metrics recommendations
        confidence_score).name = name ∧
    (MonetizationStrategy.mk name description metrics recommendations
        confidence_score).description = description ∧
    (MonetizationStrategy.mk name description metrics recommendations
        confidence_score).metrics = metrics ∧
    (MonetizationStrategy.mk name description metrics recommendations
        confidence_score).recommendations = recommendations ∧
    (MonetizationStrategy.mk name description metrics recommendations
        confidence_score).confidence_score = confidence_score :=
  ⟨rfl, rfl, rfl, rfl, rfl⟩

/-- C9: `optimize_strategy` returns `None` rather than a
`MonetizationStrategy` (its body is `pass`), and the strategy argument
comes out of the call with its state unchanged. -/
theorem optimize_strategy_returns_none (self : MonetizationStrategyGenerator)
    (strategy : MonetizationStrategy) (feedback : List (String × Rat)) :
    (self.optimize_strategy strategy feedback).1.1 = Option.none ∧
    (self.optimize_strategy strategy feedback).1.2 = strategy :=
  ⟨rfl, rfl⟩

/-- C10: every collaborator reference is fixed at construction and no
operation reassigns it: the constructors store exactly their arguments,
and `process`, `generate_strategies`, `optimize_strategy` and
`save_strategy` each return their receiver with the same field values. -/
theorem collaborator_refs_fixed :
    (∀ cleaner : DataCleaner, (DataProcessor.mk cleaner).data_cleaner = cleaner) ∧
    (∀ (self : DataProcessor) (data : PyVal), (self.process data).2 = self) ∧
    (∀ (dp : DataProcessor) (ma : MarketAnalyzer) (kr : KnowledgeRepository),
      (MonetizationStrategyGenerator.mk dp ma kr).data_processor = dp ∧
      (MonetizationStrategyGenerator.mk dp ma kr).market_analyzer = ma ∧
      (MonetizationStrategyGenerator.mk dp ma kr).knowledge_repository = kr) ∧
    (∀ (self : MonetizationStrategyGenerator) (bd mt : PyVal),
      (self.generate_strategies bd mt).2 = self) ∧
    (∀ (self : MonetizationStrategyGenerator) (s : MonetizationStrategy)
      (f : List (String × Rat)), (self.optimize_strategy s f).2 = self) ∧
    (∀ (self : MonetizationStrategyGenerator) (s : MonetizationStrategy),
      (self.save_strategy s).2 = self) := by
  refine ⟨fun c => rfl, ?_, fun dp ma kr => ⟨rfl, rfl, rfl⟩, ?_, fun s a b => rfl, ?_⟩
  · intro self data
    cases h : self.data_cleaner.clean data <;> simp [DataProcessor.process, h]
  · intro self bd mt
    cases h1 : self.data_processor.data_cleaner.clean bd <;>
      cases h2 : self.market_analyzer.analyze mt <;>
        simp [MonetizationStrategyGenerator.generate_strategies,
          DataProcessor.process, h1, h2,
          MonetizationStrategyGenerator._identify_inefficiencies, pyIter]
  · intro self s
    cases h : self.knowledge_repository.save s.toStr "monetization_strategies" <;>
      simp [MonetizationStrategyGenerator.save_strategy, h]

/-- C4: `generate_strategies` processes the business data and the market
trends before any call to `_identify_inefficiencies` (whenever the latter
was called, `process` had been called once on `business_data` and `analyze`
once on `market_trends`); if the cleaning step raises, or the cleaning
step succeeds and the analysis step raises, then `_identify_inefficiencies`
and `_create_strategy` are never called, no list is returned, and the same
exception propagates after one error log. -/
theorem generate_strategies_failfast (self : MonetizationStrategyGenerator)
    (business_data market_trends : PyVal) :
    ((self.generate_strategies business_data market_trends).1.identifyCalls ≠ [] →
      (self.generate_strategies business_data market_trends).1.processCalls =
          [business_data] ∧
        (self.generate_strategies business_data market_trends).1.analyzeCalls =
          [market_trends]) ∧
    (∀ e, self.data_processor.data_cleaner.clean business_data = .error e →
      (self.generate_strategies business_data market_trends).1.result = .error e ∧
      (self.generate_strategies business_data market_trends).1.identifyCalls = [] ∧
      (self.generate_strategies business_data market_trends).1.createCalls = [] ∧
      (self.generate_strategies business_data market_trends).1.logs =
        [String.append "Error generating strategies: " e.str]) ∧
    (∀ pb e, self.data_processor.data_cleaner.clean business_data = .ok pb →
      self.market_analyzer.analyze market_trends = .error e →
      (self.generate_strategies business_data market_trends).1.result = .error e ∧
      (self.generate_strategies business_data market_trends).1.identifyCalls = [] ∧
      (self.generate_strategies business_data market_trends).1.createCalls = [] ∧
      (self.generate_strategies business_data market_trends).1.logs =
        [String.append "Error generating strategies: " e.str]) := by
  refine ⟨?_, ?_, ?_⟩
  · intro hne
    cases h1 : self.data_processor.data_cleaner.clean business_data with
    | error e =>
        simp [MonetizationStrategyGenerator.generate_strategies,
          DataProcessor.process, h1] at hne
    | ok pb =>
        cases h2 : self.market_analyzer.analyze market_trends with
        | error e =>
            simp [MonetizationStrategyGenerator.generate_strategies,
              DataProcessor.process, h1, h2] at hne
        | ok pm =>
            constructor <;>
              simp [MonetizationStrategyGenerator.generate_strategies,
                DataProcessor.process, h1, h2,
                MonetizationStrategyGenerator._identify_inefficiencies, pyIter]
  · intro e h1
    simp [MonetizationStrategyGenerator.generate_strategies,
      DataProcessor.process, h1]
  · intro pb e h1 h2
    simp [MonetizationStrategyGenerator.generate_strategies,
      DataProcessor.process, h1, h2]

/-- Witness for C4 at concrete collaborators: the all-succeeding generator
reaches `_identify_inefficiencies` having processed both inputs, the
raising cleaner and the raising analyzer each stop strategy creation and
propagate their exception after one log. -/
theorem generate_strategies_failfast_witness :
    ((genOk.generate_strategies sampleData sampleTrends).1.processCalls =
        [sampleData] ∧
      (genOk.generate_strategies sampleData sampleTrends).1.analyzeCalls =
        [sampleTrends]) ∧
    ((genCleanErr.generate_strategies sampleData sampleTrends).1.result =
        .error (PyExc.external "ValueError" "bad input") ∧
      (genCleanErr.generate_strategies sampleData sampleTrends).1.identifyCalls = [] ∧
      (genCleanErr.generate_strategies sampleData sampleTrends).1.createCalls = [] ∧
      (genCleanErr.generate_strategies sampleData sampleTrends).1.logs =
        [String.append "Error generating strategies: "
          (PyExc.str (PyExc.external "ValueError" "bad input"))]) ∧
    ((genAnalyzeErr.generate_strategies sampleData sampleTrends).1.result =
        .error (PyExc.external "RuntimeError" "market feed down") ∧
      (genAnalyzeErr.generate_strategies sampleData sampleTrends).1.identifyCalls = [] ∧
      (genAnalyzeErr.generate_strategies sampleData sampleTrends).1.createCalls = [] ∧
      (genAnalyzeErr.generate_strategies sampleData sampleTrends).1.logs =
        [String.append "Error generating strategies: "
          (PyExc.str (PyExc.external "RuntimeError" "market feed down"))]) :=
  ⟨(generate_strategies_failfast genOk sampleData sampleTrends).1
      (by intro h; exact absurd (congrArg List.length h) (by decide)),
   (generate_strategies_failfast genCleanErr sampleData sampleTrends).2.1
      (PyExc.external "ValueError" "bad input") rfl,
   (generate_strategies_failfast genAnalyzeErr sampleData sampleTrends).2.2
      sampleData (PyExc.external "RuntimeError" "market feed down") rfl rfl⟩

/-- C7: whenever both processing steps succeed, `generate_strategies` does
not return: `_identify_inefficiencies` returns `None`, the `for` statement
raises `TypeError` on it, and that exception is logged and propagated; and
over all collaborators and inputs there is no execution in which
`generate_strategies` returns a value. -/
theorem generate_strategies_never_returns (self : MonetizationStrategyGenerator)
    (business_data market_trends : PyVal) :
    (∀ pb pm, self.data_processor.data_cleaner.clean business_data = .ok pb →
      self.market_analyzer.analyze market_trends = .ok pm →
      (self.generate_strategies business_data market_trends).1.result =
        .error (PyExc.typeError "'NoneType' object is not iterable") ∧
      (self.generate_strategies business_data market_trends).1.logs =
        ["Error generating strategies: 'NoneType' object is not iterable"]) ∧
    (∀ v, (self.generate_strategies business_data market_trends).1.result ≠
      Except.ok v) := by
  constructor
  · intro pb pm h1 h2
    constructor <;>
      simp [MonetizationStrategyGenerator.generate_strategies,
         DataProcessor.process, h1, h2,
         MonetizationStrategyGenerator._identify_inefficiencies, pyIter,
         PyVal.typeName] <;>
        decide
  · intro v
    cases h1 : self.data_processor.data_cleaner.clean business_data with
    | error e =>
        simp [MonetizationStrategyGenerator.generate_strategies,
          DataProcessor.process, h1]
    | ok pb =>
        cases h2 : self.market_analyzer.analyze market_trends with
        | error e =>
            simp [MonetizationStrategyGenerator.generate_strategies,
              DataProcessor.process, h1, h2]
        | ok pm =>
            simp [MonetizationStrategyGenerator.generate_strategies,
              DataProcessor.process, h1, h2,
              MonetizationStrategyGenerator._identify_inefficiencies, pyIter]

/-- Witness for C7 at the all-succeeding collaborators. -/
theorem generate_strategies_never_returns_witness :
    (genOk.generate_strategies sampleData sampleTrends).1.result =
      .error (PyExc.typeError "'NoneType' object is not iterable") ∧
    (genOk.generate_strategies sampleData sampleTrends).1.logs =
      ["Error generating strategies: 'NoneType' object is not iterable"] :=
  (generate_strategies_never_returns genOk sampleData sampleTrends).1
    sampleData sampleTrends rfl rfl

/-- C5: `save_strategy` calls the knowledge repository's `save` exactly
once, with `str(strategy)` as first argument and the fixed category label
as second; when the repository succeeds the call returns `None`. -/
theorem save_strategy_contract (self : MonetizationStrategyGenerator)
    (strategy : MonetizationStrategy) :
    (self.save_strategy strategy).1.saveCalls =
      [(strategy.toStr, "monetization_strategies")] ∧
    (self.knowledge_repository.save strategy.toStr "monetization_strategies" =
        .ok () →
      (self.save_strategy strategy).1.result = .ok ()) := by
  constructor
  · cases h : self.knowledge_repository.save strategy.toStr
        "monetization_strategies" <;>
      simp [MonetizationStrategyGenerator.save_strategy, h]
  · intro h
    simp [MonetizationStrategyGenerator.save_strategy, h]

/-- Witness for C5 at the succeeding repository and the sample strategy. -/
theorem save_strategy_contract_witness :
    (genOk.save_strategy sampleStrategy).1.saveCalls =
      [(sampleStrategy.toStr, "monetization_strategies")] ∧
    (genOk.save_strategy sampleStrategy).1.result = .ok () :=
  ⟨(save_strategy_contract genOk sampleStrategy).1,
   (save_strategy_contract genOk sampleStrategy).2 rfl⟩

/-- C2 (the code evaluated at the failing input): with collaborators that
succeed, `generate_strategies` creates no strategy and returns no list —
`_identify_inefficiencies` has a `pass` body returning `None` and the `for`
statement raises `TypeError` on it — contradicting its own docstring
`Returns: A list of MonetizationStrategy objects`. -/
theorem generate_strategies_docstring_violated :
    (genOk.generate_strategies sampleData sampleTrends).1.result =
      .error (PyExc.typeError "'NoneType' object is not iterable") ∧
    (genOk.generate_strategies sampleData sampleTrends).1.createCalls = [] :=
  ⟨rfl, rfl⟩

/-- C3 counterexample: `save_strategy` has no `try`/`except`, so when the
repository's `save` raises, the exception propagates unchanged but nothing
is logged — the claim's single log-then-re-raise policy does not cover
`save_strategy`. -/
theorem save_strategy_failure_not_logged :
    (genRepoErr.save_strategy sampleStrategy).1.result =
      .error (PyExc.external "IOError" "disk full") ∧
    (genRepoErr.save_strategy sampleStrategy).1.logs = [] :=
  ⟨rfl, rfl⟩

/-- C3 as amended: every exception raised by a collaborator or an internal
step propagates unchanged out of the public operation in which it arose —
nothing is swallowed or translated and no partial result is returned —
and `process` and `generate_strategies` log the failure message at error
severity before re-raising, while `save_strategy` re-raises without
logging (it installs no handler).  The arms cover each realizable failure:
the cleaner raising (inside `process` and inside `generate_strategies`),
the analyzer raising, the one internal-step failure the code can produce —
the `TypeError` from iterating the `None` that `_identify_inefficiencies`
returns, raised whenever both collaborators succeed — and the repository
raising inside `save_strategy`. -/
theorem error_propagation_policy :
    (∀ (self : DataProcessor) (data : PyVal) (e : PyExc),
      self.data_cleaner.clean data = .error e →
      (self.process data).1.result = .error e ∧
      (self.process data).1.logs =
        [String.append "Data processing failed: " e.str]) ∧
    (∀ (self : MonetizationStrategyGenerator) (bd mt : PyVal) (e : PyExc),
      self.data_processor.data_cleaner.clean bd = .error e →
      (self.generate_strategies bd mt).1.result = .error e ∧
      (self.generate_strategies bd mt).1.logs =
        [String.append "Error generating strategies: " e.str]) ∧
    (∀ (self : MonetizationStrategyGenerator) (bd mt pb : PyVal) (e : PyExc),
      self.data_processor.data_cleaner.clean bd = .ok pb →
      self.market_analyzer.analyze mt = .error e →
      (self.generate_strategies bd mt).1.result = .error e ∧
      (self.generate_strategies bd mt).1.logs =
        [String.append "Error generating strategies: " e.str]) ∧
    (∀ (self : MonetizationStrategyGenerator) (bd mt pb pm : PyVal),
      self.data_processor.data_cleaner.clean bd = .ok pb →
      self.market_analyzer.analyze mt = .ok pm →
      (self.generate_strategies bd mt).1.result =
        .error (PyExc.typeError "'NoneType' object is not iterable") ∧
      (self.generate_strategies bd mt).1.logs =
        ["Error generating strategies: 'NoneType' object is not iterable"]) ∧
    (∀ (self : MonetizationStrategyGenerator) (s : MonetizationStrategy)
      (e : PyExc),
      self.knowledge_repository.save s.toStr "monetization_strategies" =
        .error e →
      (self.save_strategy s).1.result = .error e ∧
      (self.save_strategy s).1.logs = []) := by
  refine ⟨?_, ?_, ?_, ?_, ?_⟩
  · intro self data e h
    simp [DataProcessor.process, h]
  · intro self bd mt e h
    simp [MonetizationStrategyGenerator.generate_strategies,
      DataProcessor.process, h]
  · intro self bd mt pb e h1 h2
    simp [MonetizationStrategyGenerator.generate_strategies,
      DataProcessor.process, h1, h2]
  · intro self bd mt pb pm h1 h2
    constructor <;>
      simp [MonetizationStrategyGenerator.generate_strategies,
         DataProcessor.process, h1, h2,
         MonetizationStrategyGenerator._identify_inefficiencies, pyIter,
         PyVal.typeName] <;>
        decide
  · intro self s e h
    simp [MonetizationStrategyGenerator.save_strategy, h]

/-- Witness for the amended C3 at concrete collaborators: the cleaner
failure is logged by `process` and by `generate_strategies`, the analyzer
failure is logged by `generate_strategies`, the internal `TypeError` on
the all-succeeding path is logged by `generate_strategies` and propagates,
and the repository failure leaves `save_strategy` with an empty log while
the same exception propagates. -/
theorem error_propagation_policy_witness :
    ((dpErr.process sampleData).1.result =
        .error (PyExc.external "ValueError" "bad input") ∧
      (dpErr.process sampleData).1.logs =
        [String.append "Data processing failed: "
          (PyExc.str (PyExc.external "ValueError" "bad input"))]) ∧
    ((genCleanErr.generate_strategies sampleData sampleTrends).1.result =
        .error (PyExc.external "ValueError" "bad input") ∧
      (genCleanErr.generate_strategies sampleData sampleTrends).1.logs =
        [String.append "Error generating strategies: "
          (PyExc.str (PyExc.external "ValueError" "bad input"))]) ∧
    ((genAnalyzeErr.generate_strategies sampleData sampleTrends).1.result =
        .error (PyExc.external "RuntimeError" "market feed down") ∧
      (genAnalyzeErr.generate_strategies sampleData sampleTrends).1.logs =
        [String.append "Error generating strategies: "
          (PyExc.str (PyExc.external "RuntimeError" "market feed down"))]) ∧
    ((genOk.generate_strategies sampleData sampleTrends).1.result =
        .error (PyExc.typeError "'NoneType' object is not iterable") ∧
      (genOk.generate_strategies sampleData sampleTrends).1.logs =
        ["Error generating strategies: 'NoneType' object is not iterable"]) ∧
    ((genRepoErr.save_strategy sampleStrategy).1.result =
        .error (PyExc.external "IOError" "disk full") ∧
      (genRepoErr.save_strategy sampleStrategy).1.logs = []) :=
  ⟨error_propagation_policy.1 dpErr sampleData
      (PyExc.external "ValueError" "bad input") rfl,
   error_propagation_policy.2.1 genCleanErr sampleData sampleTrends
      (PyExc.external "ValueError" "bad input") rfl,
   error_propagation_policy.2.2.1 genAnalyzeErr sampleData sampleTrends
      sampleData (PyExc.external "RuntimeError" "market feed down") rfl rfl,
   error_propagation_policy.2.2.2.1 genOk sampleData sampleTrends
      sampleData sampleTrends rfl rfl,
   error_propagation_policy.2.2.2.2 genRepoErr sampleStrategy
      (PyExc.external "IOError" "disk full") rfl⟩

end ABMS
